import Mathlib

/-!
Verification of the LogiSketch layout/rendering core against its
specification.  The definitions below are a shallow embedding of the
TypeScript sources over the rationals: numbers become `ℚ`, JS arrays
become `List`, and the `for`/`while` loops of the lighting layout become
`List.range` maps and fuel-indexed recursion with the source's iteration
bound.  Sources embedded:
  - src/types.ts                        (data model)
  - src/components/WarehouseCanvas.tsx  (current renderer)
  - src/WarehouseCanvas.tsx             (legacy renderer)
  - src/components/IndustrialApp.tsx    (object collection operations)
-/

/-- Orientation of lighting profiles (src/types.ts `LightingOrientation`). -/
inductive LightingOrientation where
  | Longitudinal
  | Transversal
deriving DecidableEq, Repr

/-- Lighting layout mode (src/types.ts `LightingMode`). -/
inductive LightingMode where
  | Quantity
  | Distance
deriving DecidableEq, Repr

/-- Lighting configuration (src/types.ts `LightingConfig`). -/
structure LightingConfig where
  isActive : Bool
  orientation : LightingOrientation
  mode : LightingMode
  value : ℚ
  offset : ℚ
  fixtureQty : ℚ
  fixturesPerProfile : ℚ
deriving DecidableEq, Repr

/-- Kind of a placed industrial object (src/types.ts `ObjectType`). -/
inductive ObjectType where
  | RACK
  | MEZZANINE
deriving DecidableEq, Repr

/-- A placed object (src/types.ts `RackBlock`). -/
structure RackBlock where
  id : String
  type : ObjectType
  x : ℚ
  y : ℚ
  width : ℚ
  depth : ℚ
  height : ℚ
  elevation : ℚ
  label : String
deriving DecidableEq, Repr

/-- Storage state (src/types.ts `StorageConfig`). -/
structure StorageConfig where
  isActive : Bool
  racks : List RackBlock
deriving DecidableEq, Repr

/-- Industrial project data (src/types.ts `ProjectData`). -/
structure ProjectData where
  projectName : String
  width : ℚ
  length : ℚ
  ceilingHeight : ℚ
  lighting : LightingConfig
  storage : StorageConfig
  luxRequired : ℚ
  observations : String
deriving DecidableEq, Repr

/-- Axis along which lighting profiles are positioned:
`const axisLimit = isLongitudinal ? data.width : data.length`
(src/components/WarehouseCanvas.tsx line 359, identically in the legacy
renderer). -/
def axisLimit (data : ProjectData) : ℚ :=
  if data.lighting.orientation = LightingOrientation.Longitudinal then data.width
  else data.length

/-- Quantity-mode profile positions
(src/components/WarehouseCanvas.tsx lines 362-368).  The JS loop
`for(let i=0; i<value; i++)` pushes one position for each natural `i`
with `i < value`, which is `⌈value⌉` iterations. -/
def quantityPositions (limit value offset : ℚ) : List ℚ :=
  if 1 ≤ value then
    if value = 1 then [limit / 2]
    else
      let availableSpace := limit - offset * 2
      let step := availableSpace / (value - 1)
      (List.range (⌈value⌉).toNat).map (fun i => offset + (i : ℚ) * step)
  else []

/-- Distance-mode profile positions of the current renderer
(src/components/WarehouseCanvas.tsx lines 369-390): fit
`intervals = ⌊available / value⌋` gaps into `available = limit - 2·offset`
and center the resulting span. -/
def distancePositions (limit value offset : ℚ) : List ℚ :=
  if 1/100 < value then
    let available := limit - offset * 2
    if 0 ≤ available then
      let intervals : ℕ := (⌊available / value⌋).toNat
      let count := intervals + 1
      if 0 < count then
        let span := (intervals : ℚ) * value
        let start := offset + (available - span) / 2
        (List.range count).map (fun i => start + (i : ℚ) * value)
      else []
    else []
  else []

/-- Profile positions computed by the current renderer's `drawScene2D`
(src/components/WarehouseCanvas.tsx lines 357-390): the quantity branch when
`mode === LightingMode.Quantity`, the distance branch otherwise. -/
def profilePositions (data : ProjectData) : List ℚ :=
  match data.lighting.mode with
  | LightingMode.Quantity =>
      quantityPositions (axisLimit data) data.lighting.value data.lighting.offset
  | LightingMode.Distance =>
      distancePositions (axisLimit data) data.lighting.value data.lighting.offset

/-- Quantity-mode profile positions of the legacy renderer
(src/WarehouseCanvas.tsx lines 323-331); the code is identical to the
current renderer's quantity branch. -/
def legacyQuantityPositions (limit value offset : ℚ) : List ℚ :=
  if 1 ≤ value then
    if value = 1 then [limit / 2]
    else
      let availableSpace := limit - offset * 2
      let step := availableSpace / (value - 1)
      (List.range (⌈value⌉).toNat).map (fun i => offset + (i : ℚ) * step)
  else []

/-- One step of the legacy distance-mode `while` loop
(src/WarehouseCanvas.tsx lines 333-341):
`while (currentPos < axisLimit && iterations < 5000)`; the fuel counts the
remaining allowed iterations. -/
def legacyDistanceStep (limit value : ℚ) : ℚ → ℕ → List ℚ
  | _, 0 => []
  | currentPos, fuel + 1 =>
    if currentPos < limit then
      currentPos :: legacyDistanceStep limit value (currentPos + value) fuel
    else []

/-- Distance-mode profile positions of the legacy renderer: step from
`offset` in increments of `value` while below `axisLimit`
(src/WarehouseCanvas.tsx lines 332-341). -/
def legacyDistancePositions (limit value offset : ℚ) : List ℚ :=
  if 1/100 < value then legacyDistanceStep limit value offset 5000
  else []

/-- Profile positions computed by the legacy renderer's `drawScene2D`
(src/WarehouseCanvas.tsx lines 313-341). -/
def legacyProfilePositions (data : ProjectData) : List ℚ :=
  match data.lighting.mode with
  | LightingMode.Quantity =>
      legacyQuantityPositions (axisLimit data) data.lighting.value data.lighting.offset
  | LightingMode.Distance =>
      legacyDistancePositions (axisLimit data) data.lighting.value data.lighting.offset

/-- Concrete lighting configuration: distance mode, spacing 5, offset 2. -/
def cfgDist5 : LightingConfig :=
  { isActive := true, orientation := LightingOrientation.Longitudinal,
    mode := LightingMode.Distance, value := 5, offset := 2,
    fixtureQty := 0, fixturesPerProfile := 0 }

/-- Concrete project: 20 m wide site with distance-mode lighting
(spacing 5, offset 2) running longitudinally, so `axisLimit = 20`. -/
def data20dist5 : ProjectData :=
  { projectName := "P", width := 20, length := 30, ceilingHeight := 8,
    lighting := cfgDist5,
    storage := { isActive := false, racks := [] },
    luxRequired := 300, observations := "" }

/-- Concrete project: distance mode whose offset consumes the axis
(`available = 2 - 2*2 < 0`), so no profiles must be produced. -/
def dataNegAvail : ProjectData :=
  { data20dist5 with width := 2 }

/-- Concrete project: quantity mode with 3 profiles, offset 2, axis 20. -/
def data20q3 : ProjectData :=
  { data20dist5 with
    lighting := { cfgDist5 with mode := LightingMode.Quantity, value := 3 } }

/-- Concrete project: quantity mode with a single profile. -/
def data1line : ProjectData :=
  { data20dist5 with
    lighting := { cfgDist5 with mode := LightingMode.Quantity, value := 1 } }

/-- Unfolding lemma for the legacy `while` loop when the position is still
below the axis limit. -/
theorem legacyDistanceStep_go {limit value pos : ℚ} {fuel : ℕ} (h : pos < limit) :
    legacyDistanceStep limit value pos (fuel + 1) =
      pos :: legacyDistanceStep limit value (pos + value) fuel := by
  simp only [legacyDistanceStep, if_pos h]

/-- Unfolding lemma for the legacy `while` loop at termination. -/
theorem legacyDistanceStep_stop {limit value pos : ℚ} {fuel : ℕ} (h : ¬ pos < limit) :
    legacyDistanceStep limit value pos (fuel + 1) = [] := by
  simp only [legacyDistanceStep, if_neg h]

/-- Ephemeral zoom/pan state (`transform` in
src/components/WarehouseCanvas.tsx line 41). -/
structure ViewTransform where
  scale : ℚ
  x : ℚ
  y : ℚ
deriving DecidableEq, Repr

/-- Output of the metric computation shared by `drawScene2D` (lines 254-265)
and `getMetrics` (lines 871-885) of src/components/WarehouseCanvas.tsx. -/
structure Metrics where
  finalScale : ℚ
  originX : ℚ
  originY : ℚ
  drawWidth : ℚ
  drawLength : ℚ
deriving DecidableEq, Repr

/-- The fixed canvas padding (`const padding = 60`). -/
def canvasPadding : ℚ := 60

/-- Unit/pixel transform metrics (src/components/WarehouseCanvas.tsx lines
254-265).  `data.width || 1` guards a zero dimension by treating it as 1. -/
def computeMetrics (siteW siteL pixelW pixelH : ℚ) (t : ViewTransform) : Metrics :=
  let availableWidth := pixelW - canvasPadding * 2
  let availableHeight := pixelH - canvasPadding * 2
  let baseScaleX := availableWidth / (if siteW = 0 then 1 else siteW)
  let baseScaleY := availableHeight / (if siteL = 0 then 1 else siteL)
  let baseScale := min baseScaleX baseScaleY
  let finalScale := baseScale * t.scale
  let drawWidth := siteW * finalScale
  let drawLength := siteL * finalScale
  { finalScale := finalScale,
    originX := (pixelW - drawWidth) / 2 + t.x,
    originY := (pixelH - drawLength) / 2 + t.y,
    drawWidth := drawWidth,
    drawLength := drawLength }

/-- Forward mapping on the X axis:
`getX = (meters) => originX + meters * finalScale`
(src/components/WarehouseCanvas.tsx lines 267-268). -/
def getXpx (m : Metrics) (meters : ℚ) : ℚ := m.originX + meters * m.finalScale

/-- Forward mapping on the Y axis (line 269). -/
def getYpx (m : Metrics) (meters : ℚ) : ℚ := m.originY + meters * m.finalScale

/-- Inverse mapping on the X axis:
`xMeters = (rawX - metrics.originX) / metrics.scale`
(src/components/WarehouseCanvas.tsx line 954). -/
def invXmeters (m : Metrics) (px : ℚ) : ℚ := (px - m.originX) / m.finalScale

/-- Inverse mapping on the Y axis (line 955). -/
def invYmeters (m : Metrics) (px : ℚ) : ℚ := (px - m.originY) / m.finalScale

/-- Snapping of a drag position to the 0.5-meter grid:
`xMeters = Math.round(xMeters / SNAP_INCREMENT) * SNAP_INCREMENT` with
`SNAP_INCREMENT = 0.5` (src/components/WarehouseCanvas.tsx lines 957-959).
JS `Math.round` rounds half-way cases toward positive infinity, as does
Mathlib's `round`. -/
def snapHalf (meters : ℚ) : ℚ := (round (meters / (1/2)) : ℚ) * (1/2)

/-- Industrial drag clamp and report: snap both coordinates, then clamp
strictly inside the site
(`xMeters = Math.max(0, Math.min(xMeters, data.width - obj.width))`,
src/components/WarehouseCanvas.tsx lines 968-973).  The pair returned is
what `onRackMove` receives. -/
def reportedMovePosition (siteW siteL objW objD rawXm rawYm : ℚ) : ℚ × ℚ :=
  let xSnapped := snapHalf rawXm
  let ySnapped := snapHalf rawYm
  (max 0 (min xSnapped (siteW - objW)), max 0 (min ySnapped (siteL - objD)))

/-- A rational is a multiple of the 0.5-meter grid. -/
def isHalfStep (q : ℚ) : Prop := ∃ n : ℤ, q = (n : ℚ) * (1/2)

/-- The epsilon used to treat touching edges as overlapping
(`const EPSILON = 0.05`, src/components/WarehouseCanvas.tsx line 524). -/
def EPSILON : ℚ := 1/20

/-- Y-range overlap test value between the dragged object and another
(src/components/WarehouseCanvas.tsx line 525):
`Math.max(0, Math.min(obj.y + obj.depth, other.y + other.depth) -
Math.max(obj.y, other.y) + EPSILON)`. -/
def vertOverlap (obj other : RackBlock) : ℚ :=
  max 0 (min (obj.y + obj.depth) (other.y + other.depth) - max obj.y other.y + EPSILON)

/-- Gap to a neighbor on the right of the dragged object, computed when
`other.x >= obj.x + obj.width` (src/components/WarehouseCanvas.tsx line 530):
`const gap = other.x - (obj.x + obj.width)`. -/
def rightGap (obj other : RackBlock) : ℚ := other.x - (obj.x + obj.width)

/-- Gap to a neighbor on the left of the dragged object, computed when
`other.x + other.width <= obj.x` (src/components/WarehouseCanvas.tsx line
535): `const gap = obj.x - (other.x + other.width)`. -/
def leftGap (obj other : RackBlock) : ℚ := obj.x - (other.x + other.width)

/-- Concrete object A: 2x2 footprint at the origin. -/
def rackA : RackBlock :=
  { id := "A", type := ObjectType.RACK, x := 0, y := 0, width := 2, depth := 2,
    height := 2, elevation := 0, label := "B1" }

/-- Concrete object B: 2x2 footprint at x = 5 on the same row. -/
def rackB : RackBlock :=
  { id := "B", type := ObjectType.RACK, x := 5, y := 0, width := 2, depth := 2,
    height := 2, elevation := 0, label := "B2" }

example : profilePositions data20dist5 = [5/2, 15/2, 25/2, 35/2] := by
  norm_num [profilePositions, data20dist5, cfgDist5, axisLimit, distancePositions,
    List.range_succ, show Int.toNat 3 = 3 from rfl]
example : profilePositions data20q3 = [2, 10, 18] := by
  norm_num [profilePositions, data20q3, data20dist5, cfgDist5, axisLimit,
    quantityPositions, List.range_succ, show Int.toNat 3 = 3 from rfl]
example : profilePositions data1line = [10] := by
  norm_num [profilePositions, data1line, data20dist5, cfgDist5, axisLimit,
    quantityPositions]
example : profilePositions dataNegAvail = [] := by
  norm_num [profilePositions, dataNegAvail, data20dist5, cfgDist5, axisLimit,
    distancePositions]
example : legacyProfilePositions data20dist5 = [2, 7, 12, 17] := by
  show legacyDistancePositions 20 5 2 = [2, 7, 12, 17]
  rw [legacyDistancePositions, if_pos (by norm_num)]
  rw [show (5000:ℕ) = 4999+1 from rfl, legacyDistanceStep_go (by norm_num)]
  rw [show (4999:ℕ) = 4998+1 from rfl, legacyDistanceStep_go (by norm_num)]
  rw [show (4998:ℕ) = 4997+1 from rfl, legacyDistanceStep_go (by norm_num)]
  rw [show (4997:ℕ) = 4996+1 from rfl, legacyDistanceStep_go (by norm_num)]
  rw [show (4996:ℕ) = 4995+1 from rfl, legacyDistanceStep_stop (by norm_num)]
  norm_num

/-- Per-rack update applied by the move entry point
(src/components/IndustrialApp.tsx lines 188-190):
`r.id === id ? { ...r, x, y } : r`. -/
def moveUpdate (id : String) (x y : ℚ) (r : RackBlock) : RackBlock :=
  if r.id = id then { r with x := x, y := y } else r

/-- Move entry point `handleRackMove`
(src/components/IndustrialApp.tsx lines 183-193). -/
def handleRackMove (prev : ProjectData) (id : String) (x y : ℚ) : ProjectData :=
  { prev with storage :=
      { prev.storage with racks := prev.storage.racks.map (moveUpdate id x y) } }

/-- Delete operation `removeRack`
(src/components/IndustrialApp.tsx lines 195-204): objects with a different
identifier are kept, and `isActive` becomes whether the pre-delete list had
more than one element. -/
def removeRack (prev : ProjectData) (id : String) : ProjectData :=
  { prev with storage :=
      { racks := prev.storage.racks.filter (fun r => r.id ≠ id),
        isActive := decide (1 < prev.storage.racks.length) } }

/-- Relabel operation `updateRackLabel`
(src/components/IndustrialApp.tsx lines 206-216). -/
def updateRackLabel (prev : ProjectData) (id : String) (newLabel : String) : ProjectData :=
  { prev with storage :=
      { prev.storage with racks :=
          prev.storage.racks.map (fun r =>
            if r.id = id then { r with label := newLabel } else r) } }

/-- Add operation `handleAddObject`
(src/components/IndustrialApp.tsx lines 152-181).  The dimensions of the new
object come from the rack form or the mezzanine form depending on the input
mode; a non-positive width or depth returns without touching the state. -/
def handleAddObject (data : ProjectData) (inputMode : ObjectType)
    (rackW rackD rackH mezzW mezzD mezzEl : ℚ) (newId : String) : ProjectData :=
  let isMezz := inputMode = ObjectType.MEZZANINE
  let w := if isMezz then mezzW else rackW
  let d := if isMezz then mezzD else rackD
  let h := if isMezz then (1/5 : ℚ) else rackH
  let el := if isMezz then mezzEl else 0
  if w ≤ 0 ∨ d ≤ 0 then data
  else
    let newBlock : RackBlock :=
      { id := newId, type := inputMode, x := 1, y := 1,
        width := w, depth := d, height := h, elevation := el,
        label :=
          if isMezz then
            "M" ++ toString
              ((data.storage.racks.filter
                  (fun r => r.type = ObjectType.MEZZANINE)).length + 1)
          else
            "B" ++ toString
              ((data.storage.racks.filter
                  (fun r => r.type = ObjectType.RACK)).length + 1) }
    { data with storage :=
        { isActive := true, racks := data.storage.racks ++ [newBlock] } }

/-- The positive-footprint invariant of the object collection:
`width > 0`, `depth > 0` for every placed object. -/
def racksInvariant (racks : List RackBlock) : Prop :=
  ∀ r ∈ racks, 0 < r.width ∧ 0 < r.depth

/-- Coarse trace of the drawing commands emitted by the 2D renderer.  Each
constructor stands for one group of canvas calls of `drawScene2D`
(src/components/WarehouseCanvas.tsx): background fill, placeholder text,
floor fill, grid strokes, wall outline, global dimension annotations, one
dashed lighting profile line, one fixture dot, one object shape. -/
inductive DrawOp where
  | background
  | placeholder
  | floor
  | grid
  | walls
  | globalDims
  | profileLine (pos : ℚ)
  | fixtureDot (x y : ℚ)
  | objectShape (id : String)
deriving DecidableEq, Repr

/-- Lighting draw commands (src/components/WarehouseCanvas.tsx lines
348-408): profile lines are drawn for positions not exceeding `axisLimit`
(`if (pos > axisLimit) return`), fixture dots are placed along every profile
of the unfiltered list, inset by a 1-meter margin, when
`fixturesPerProfile > 0`. -/
def lightingDraw (data : ProjectData) : List DrawOp :=
  if data.lighting.isActive then
    let limit := axisLimit data
    let positions := profilePositions data
    let lineOps := (positions.filter (fun pos => ¬ limit < pos)).map DrawOp.profileLine
    let profileLength :=
      if data.lighting.orientation = LightingOrientation.Longitudinal then data.length
      else data.width
    let fpp := data.lighting.fixturesPerProfile
    let fixtureOps :=
      if 0 < fpp ∧ 0 < positions.length then
        positions.flatMap (fun pos =>
          let usableLen := profileLength - 2
          let step := if 1 < fpp then usableLen / (fpp - 1) else 0
          (List.range (⌈fpp⌉).toNat).map (fun i =>
            let distAlong := if fpp = 1 then profileLength / 2 else 1 + (i : ℚ) * step
            if data.lighting.orientation = LightingOrientation.Longitudinal then
              DrawOp.fixtureDot pos distAlong
            else DrawOp.fixtureDot distAlong pos))
      else []
    lineOps ++ fixtureOps
  else []

/-- Object draw commands (src/components/WarehouseCanvas.tsx lines 423-427):
objects drawn in ascending order of elevation. -/
def objectsDraw (data : ProjectData) : List DrawOp :=
  (data.storage.racks.mergeSort (fun a b => a.elevation ≤ b.elevation)).map
    (fun r => DrawOp.objectShape r.id)

/-- The 2D renderer's command trace for the industrial variant
(src/components/WarehouseCanvas.tsx lines 253-674): background first; if a
site dimension is non-positive, the placeholder text is drawn and the
function returns (lines 275-281); otherwise floor, grid, walls, global
dimensions, lighting, and objects follow. -/
def drawScene2DOps (data : ProjectData) : List DrawOp :=
  DrawOp.background ::
    (if data.width ≤ 0 ∨ data.length ≤ 0 then [DrawOp.placeholder]
     else [DrawOp.floor, DrawOp.grid, DrawOp.walls, DrawOp.globalDims]
       ++ lightingDraw data
       ++ objectsDraw data)

/-- Concrete degenerate project: zero site width. -/
def dataZeroWidth : ProjectData :=
  { data20dist5 with
    width := 0
    storage := { isActive := true, racks := [rackA, rackB] } }

/-- Concrete project with two racks for the state-operation claims. -/
def dataTwoRacks : ProjectData :=
  { data20dist5 with storage := { isActive := true, racks := [rackA, rackB] } }

example : drawScene2DOps dataZeroWidth = [DrawOp.background, DrawOp.placeholder] := by
  norm_num [drawScene2DOps, dataZeroWidth, data20dist5]
example : reportedMovePosition 10 10 2 2 (-5) 0 = (0, 0) := by
  norm_num [reportedMovePosition, snapHalf, round_eq]
example : reportedMovePosition 10 10 2 2 9 0 = (8, 0) := by
  norm_num [reportedMovePosition, snapHalf, round_eq]
example : reportedMovePosition 10 10 (6/5) 1 9 1 = (44/5, 1) := by
  norm_num [reportedMovePosition, snapHalf, round_eq]

/-- C1: distance-mode lighting layout.  For every project whose lighting is
in distance mode with `value > 0.01` and `available = axisLimit - 2·offset
≥ 0`, the profile positions are `start + i·value` for `i = 0..intervals`
with `intervals = ⌊available/value⌋`, `span = intervals·value` and
`start = offset + (available - span)/2`; if `value ≤ 0.01` or
`available < 0` no profiles are produced; and `axisLimit = 20, offset = 2,
value = 5` yields exactly `2.5, 7.5, 12.5, 17.5`. -/
theorem lighting_distance_mode_layout :
    (∀ data : ProjectData,
        data.lighting.mode = LightingMode.Distance →
        1/100 < data.lighting.value →
        0 ≤ axisLimit data - data.lighting.offset * 2 →
        profilePositions data =
          (List.range
              ((⌊(axisLimit data - data.lighting.offset * 2) /
                  data.lighting.value⌋).toNat + 1)).map
            (fun i =>
              data.lighting.offset +
                ((axisLimit data - data.lighting.offset * 2) -
                  ((⌊(axisLimit data - data.lighting.offset * 2) /
                      data.lighting.value⌋).toNat : ℚ) * data.lighting.value) / 2 +
                (i : ℚ) * data.lighting.value)) ∧
    (∀ data : ProjectData,
        data.lighting.mode = LightingMode.Distance →
        data.lighting.value ≤ 1/100 ∨ axisLimit data - data.lighting.offset * 2 < 0 →
        profilePositions data = []) ∧
    profilePositions data20dist5 = [5/2, 15/2, 25/2, 35/2] := by
  refine ⟨?_, ?_, ?_⟩
  · intro data hm hv ha
    simp only [profilePositions, hm, distancePositions, if_pos hv, if_pos ha,
      Nat.succ_pos, if_pos]
  · intro data hm h
    simp only [profilePositions, hm, distancePositions]
    rcases h with h | h
    · rw [if_neg (not_lt.mpr h)]
    · by_cases hv : 1/100 < data.lighting.value
      · rw [if_pos hv, if_neg (not_le.mpr h)]
      · rw [if_neg hv]
  · norm_num [profilePositions, data20dist5, cfgDist5, axisLimit, distancePositions,
      List.range_succ, show Int.toNat 3 = 3 from rfl]

/-- Witness for C1: the distance-mode layout theorem applied to the concrete
projects `data20dist5` and `dataNegAvail`. -/
theorem lighting_distance_mode_layout_witness :
    profilePositions dataNegAvail = [] ∧
    profilePositions data20dist5 = [5/2, 15/2, 25/2, 35/2] :=
  ⟨lighting_distance_mode_layout.2.1 dataNegAvail rfl
      (Or.inr (by norm_num [axisLimit, dataNegAvail, data20dist5, cfgDist5])),
    lighting_distance_mode_layout.2.2⟩

/-- C2 counterexample: with quantity mode, `value = 3, offset = 2,
axisLimit = 20`, the code computes step `(20 - 2·2)/(3-1) = 8` and the
profiles `2, 10, 18`, not `2, 11, 20` as the claim's example states. -/
theorem lighting_quantity_example_cex :
    profilePositions data20q3 = [2, 10, 18] ∧
    profilePositions data20q3 ≠ [2, 11, 20] := by
  have h : profilePositions data20q3 = [2, 10, 18] := by
    norm_num [profilePositions, data20q3, data20dist5, cfgDist5, axisLimit,
      quantityPositions, List.range_succ, show Int.toNat 3 = 3 from rfl]
  refine ⟨h, ?_⟩
  rw [h]
  norm_num

/-- C2 amended: quantity-mode lighting layout.  `value = 1` produces exactly
one profile at `axisLimit/2`; every integer `value = n > 1` produces exactly
`n` profiles at `offset + i·(axisLimit - 2·offset)/(n-1)` for
`i = 0..n-1`; and `value = 3, offset = 2, axisLimit = 20` yields profiles at
`2, 10, 18`. -/
theorem lighting_quantity_mode_layout :
    (∀ data : ProjectData,
        data.lighting.mode = LightingMode.Quantity →
        data.lighting.value = 1 →
        profilePositions data = [axisLimit data / 2]) ∧
    (∀ (data : ProjectData) (n : ℕ),
        data.lighting.mode = LightingMode.Quantity →
        2 ≤ n →
        data.lighting.value = (n : ℚ) →
        profilePositions data =
          (List.range n).map (fun i =>
            data.lighting.offset +
              (i : ℚ) *
                ((axisLimit data - data.lighting.offset * 2) / ((n : ℚ) - 1)))) ∧
    profilePositions data20q3 = [2, 10, 18] := by
  refine ⟨?_, ?_, ?_⟩
  · intro data hm hv
    simp only [profilePositions, hm, quantityPositions, hv]
    norm_num
  · intro data n hm hn hv
    have h1 : (1 : ℚ) ≤ (n : ℚ) := by
      have h1n : (1 : ℕ) ≤ n := by omega
      exact_mod_cast h1n
    have hne : ((n : ℚ)) ≠ 1 := by
      intro h
      have : n = 1 := by exact_mod_cast h
      omega
    simp only [profilePositions, hm, quantityPositions, hv, if_pos h1, if_neg hne,
      Int.ceil_natCast, Int.toNat_natCast]
  · norm_num [profilePositions, data20q3, data20dist5, cfgDist5, axisLimit,
      quantityPositions, List.range_succ, show Int.toNat 3 = 3 from rfl]

/-- Witness for C2: the quantity-mode layout theorem applied to the concrete
projects `data1line` (single profile) and `data20q3` (three profiles). -/
theorem lighting_quantity_mode_layout_witness :
    profilePositions data1line = [axisLimit data1line / 2] ∧
    profilePositions data20q3 =
      (List.range 3).map (fun i =>
        data20q3.lighting.offset +
          (i : ℚ) *
            ((axisLimit data20q3 - data20q3.lighting.offset * 2) /
              (((3 : ℕ) : ℚ) - 1))) :=
  ⟨lighting_quantity_mode_layout.1 data1line rfl rfl,
    lighting_quantity_mode_layout.2.1 data20q3 3 rfl (by norm_num) (by norm_num [data20q3, data20dist5, cfgDist5])⟩

/-- C6: variant equivalence of the lighting algorithm.  The legacy renderer
and the current renderer compute identical profile-position lists for every
input in quantity mode, whereas on the distance-mode input `axisLimit = 20,
offset = 2, value = 5` the legacy left-to-right stepping produces
`2, 7, 12, 17` while the current centered placement produces
`2.5, 7.5, 12.5, 17.5`. -/
theorem variant_lighting_equiv :
    (∀ data : ProjectData,
        data.lighting.mode = LightingMode.Quantity →
        legacyProfilePositions data = profilePositions data) ∧
    legacyProfilePositions data20dist5 ≠ profilePositions data20dist5 ∧
    legacyProfilePositions data20dist5 = [2, 7, 12, 17] ∧
    profilePositions data20dist5 = [5/2, 15/2, 25/2, 35/2] := by
  have hleg : legacyProfilePositions data20dist5 = [2, 7, 12, 17] := by
    show legacyDistancePositions 20 5 2 = [2, 7, 12, 17]
    rw [legacyDistancePositions, if_pos (by norm_num)]
    rw [show (5000:ℕ) = 4999+1 from rfl, legacyDistanceStep_go (by norm_num)]
    rw [show (4999:ℕ) = 4998+1 from rfl, legacyDistanceStep_go (by norm_num)]
    rw [show (4998:ℕ) = 4997+1 from rfl, legacyDistanceStep_go (by norm_num)]
    rw [show (4997:ℕ) = 4996+1 from rfl, legacyDistanceStep_go (by norm_num)]
    rw [show (4996:ℕ) = 4995+1 from rfl, legacyDistanceStep_stop (by norm_num)]
    norm_num
  have hcur : profilePositions data20dist5 = [5/2, 15/2, 25/2, 35/2] := by
    norm_num [profilePositions, data20dist5, cfgDist5, axisLimit, distancePositions,
      List.range_succ, show Int.toNat 3 = 3 from rfl]
  refine ⟨?_, ?_, hleg, hcur⟩
  · intro data hm
    simp only [legacyProfilePositions, profilePositions, hm]
    rfl
  · rw [hleg, hcur]
    norm_num

/-- Witness for C6: the quantity-mode part of the variant-equivalence
theorem applied to the concrete project `data20q3`. -/
theorem variant_lighting_equiv_witness :
    legacyProfilePositions data20q3 = profilePositions data20q3 :=
  variant_lighting_equiv.1 data20q3 rfl

/-- Concrete degenerate viewport: its width equals `2·padding = 120`, which
makes `baseScaleX = 0` and hence `finalScale = 0`. -/
def cexMetrics : Metrics := computeMetrics 10 10 120 240 ⟨1, 0, 0⟩

/-- C3 counterexample: the round-trip fails on a viewport whose pixel width
equals `2·padding`.  All the claim's hypotheses hold (site 10x10, zoom scale
1 in [0.5, 10], point (1,1) within bounds), yet the computed `finalScale` is
0, the forward mapping collapses to `originX`, and the inverse mapping
divides by zero, returning 0 instead of 1 (over floats the same input
produces `0/0 = NaN`). -/
theorem transform_roundtrip_cex :
    (0 : ℚ) < 10 ∧ (1 : ℚ)/2 ≤ 1 ∧ (1 : ℚ) ≤ 10 ∧
    (0 : ℚ) ≤ 1 ∧ (1 : ℚ) ≤ 10 ∧
    cexMetrics.finalScale = 0 ∧
    invXmeters cexMetrics (getXpx cexMetrics 1) = 0 ∧
    invXmeters cexMetrics (getXpx cexMetrics 1) ≠ 1 := by
  norm_num [cexMetrics, computeMetrics, invXmeters, getXpx, canvasPadding]

/-- C3 amended: unit/pixel transform round-trip.  For every site with
positive dimensions, every viewport and view transform with zoom scale in
[0.5, 10] for which the computed `finalScale` is nonzero, and every point
within site bounds, the inverse mapping undoes the forward mapping exactly
over the rationals. -/
theorem transform_roundtrip (siteW siteL pixelW pixelH : ℚ) (t : ViewTransform)
    (mx my : ℚ)
    (hW : 0 < siteW) (hL : 0 < siteL)
    (hs1 : 1/2 ≤ t.scale) (hs2 : t.scale ≤ 10)
    (hmx0 : 0 ≤ mx) (hmxW : mx ≤ siteW) (hmy0 : 0 ≤ my) (hmyL : my ≤ siteL)
    (hfs : (computeMetrics siteW siteL pixelW pixelH t).finalScale ≠ 0) :
    invXmeters (computeMetrics siteW siteL pixelW pixelH t)
        (getXpx (computeMetrics siteW siteL pixelW pixelH t) mx) = mx ∧
    invYmeters (computeMetrics siteW siteL pixelW pixelH t)
        (getYpx (computeMetrics siteW siteL pixelW pixelH t) my) = my := by
  constructor
  · simp only [invXmeters, getXpx]
    rw [add_sub_cancel_left, mul_div_cancel_right₀ _ hfs]
  · simp only [invYmeters, getYpx]
    rw [add_sub_cancel_left, mul_div_cancel_right₀ _ hfs]

/-- Witness for C3: the round-trip theorem applied to a 10x10 site, a
600x400 viewport and the identity view transform at the point (3, 4). -/
theorem transform_roundtrip_witness :
    invXmeters (computeMetrics 10 10 600 400 ⟨1, 0, 0⟩)
        (getXpx (computeMetrics 10 10 600 400 ⟨1, 0, 0⟩) 3) = 3 ∧
    invYmeters (computeMetrics 10 10 600 400 ⟨1, 0, 0⟩)
        (getYpx (computeMetrics 10 10 600 400 ⟨1, 0, 0⟩) 4) = 4 :=
  transform_roundtrip 10 10 600 400 ⟨1, 0, 0⟩ 3 4
    (by norm_num) (by norm_num) (by norm_num) (by norm_num)
    (by norm_num) (by norm_num) (by norm_num) (by norm_num)
    (by norm_num [computeMetrics, canvasPadding])

/-- C7: fit invariant of the unit/pixel transform.  For every site with
positive dimensions and every viewport strictly larger than `2·padding`
in both directions, at zoom scale 1 the computed drawing dimensions fit
inside the padded viewport. -/
theorem fit_invariant (siteW siteL pixelW pixelH panX panY : ℚ)
    (hW : 0 < siteW) (hL : 0 < siteL)
    (hpw : 2 * canvasPadding < pixelW) (hph : 2 * canvasPadding < pixelH) :
    (computeMetrics siteW siteL pixelW pixelH ⟨1, panX, panY⟩).drawWidth ≤
        pixelW - 2 * canvasPadding ∧
    (computeMetrics siteW siteL pixelW pixelH ⟨1, panX, panY⟩).drawLength ≤
        pixelH - 2 * canvasPadding := by
  have hWne : siteW ≠ 0 := ne_of_gt hW
  have hLne : siteL ≠ 0 := ne_of_gt hL
  simp only [computeMetrics, if_neg hWne, if_neg hLne, mul_one]
  constructor
  · have hle : min ((pixelW - canvasPadding * 2) / siteW)
        ((pixelH - canvasPadding * 2) / siteL) ≤ (pixelW - canvasPadding * 2) / siteW :=
      min_le_left _ _
    calc siteW * min ((pixelW - canvasPadding * 2) / siteW)
          ((pixelH - canvasPadding * 2) / siteL)
        ≤ siteW * ((pixelW - canvasPadding * 2) / siteW) :=
          mul_le_mul_of_nonneg_left hle (le_of_lt hW)
      _ = pixelW - canvasPadding * 2 := mul_div_cancel₀ _ hWne
      _ ≤ pixelW - 2 * canvasPadding := by ring_nf; exact le_refl _
  · have hle : min ((pixelW - canvasPadding * 2) / siteW)
        ((pixelH - canvasPadding * 2) / siteL) ≤ (pixelH - canvasPadding * 2) / siteL :=
      min_le_right _ _
    calc siteL * min ((pixelW - canvasPadding * 2) / siteW)
          ((pixelH - canvasPadding * 2) / siteL)
        ≤ siteL * ((pixelH - canvasPadding * 2) / siteL) :=
          mul_le_mul_of_nonneg_left hle (le_of_lt hL)
      _ = pixelH - canvasPadding * 2 := mul_div_cancel₀ _ hLne
      _ ≤ pixelH - 2 * canvasPadding := by ring_nf; exact le_refl _

/-- Witness for C7: the fit invariant applied to a 10x20 site in a 600x400
viewport. -/
theorem fit_invariant_witness :
    (computeMetrics 10 20 600 400 ⟨1, 0, 0⟩).drawWidth ≤ 600 - 2 * canvasPadding ∧
    (computeMetrics 10 20 600 400 ⟨1, 0, 0⟩).drawLength ≤ 400 - 2 * canvasPadding :=
  fit_invariant 10 20 600 400 0 0 (by norm_num) (by norm_num)
    (by norm_num [canvasPadding]) (by norm_num [canvasPadding])

/-- Helper: a snapped coordinate is a multiple of the 0.5-meter grid. -/
theorem snapHalf_isHalfStep (m : ℚ) : isHalfStep (snapHalf m) :=
  ⟨round (m / (1/2)), rfl⟩

/-- Helper: clamping a value to `[0, b]` with `0 ≤ b` lands either on the
value itself, on 0, or on `b`. -/
theorem clamp_cases (v b : ℚ) (hb : 0 ≤ b) :
    max 0 (min v b) = v ∨ max 0 (min v b) = 0 ∨ max 0 (min v b) = b := by
  rcases le_total v b with h | h
  · rw [min_eq_left h]
    rcases le_total v 0 with h0 | h0
    · exact Or.inr (Or.inl (max_eq_left h0))
    · exact Or.inl (max_eq_right h0)
  · rw [min_eq_right h]
    exact Or.inr (Or.inr (max_eq_right hb))

/-- Helper: the clamped value stays within `[0, b]` when `0 ≤ b`. -/
theorem clamp_mem (v b : ℚ) (hb : 0 ≤ b) :
    0 ≤ max 0 (min v b) ∧ max 0 (min v b) ≤ b := by
  refine ⟨le_max_left _ _, ?_⟩
  rw [max_le_iff]
  exact ⟨hb, min_le_right _ _⟩

/-- C4 counterexample: the reported drag position is not always a multiple
of 0.5.  Snapping happens before clamping, so when the upper clamp bound
binds, the reported coordinate equals `site.width - object.width`, which
need not lie on the grid: with `site.width = 10` and `object.width = 1.2`
(the app's default rack width), dragging to raw `x = 9` reports
`x = 8.8 = 44/5`, and `44/5` is not an integer multiple of `1/2`. -/
theorem drag_move_grid_cex :
    reportedMovePosition 10 10 (6/5) 1 9 1 = (44/5, 1) ∧
    ¬ isHalfStep (44/5) := by
  constructor
  · norm_num [reportedMovePosition, snapHalf, round_eq]
  · rintro ⟨n, hn⟩
    have h5 : (n : ℚ) = 88/5 := by linarith
    have h5' : ((5 * n : ℤ) : ℚ) = ((88 : ℤ) : ℚ) := by push_cast; linarith
    have : (5 * n : ℤ) = 88 := by exact_mod_cast h5'
    omega

/-- C4 amended: drag-move callback postcondition.  In the industrial
variant, whenever the object fits the site (`objW ≤ siteW`,
`objD ≤ siteL`), the reported position lies in
`[0, siteW - objW] × [0, siteL - objD]`, and each coordinate is either a
multiple of 0.5 or equal to its upper clamp bound (`siteW - objW`
respectively `siteL - objD`; the lower bound 0 is itself a multiple of
0.5).  In particular dragging an object with width 2 on a site of width 10
to raw x = -5 reports x = 0, and to raw x = 9 reports x = 8. -/
theorem drag_move_clamped_snapped :
    (∀ siteW siteL objW objD rawXm rawYm : ℚ,
        objW ≤ siteW → objD ≤ siteL →
        (0 ≤ (reportedMovePosition siteW siteL objW objD rawXm rawYm).1 ∧
          (reportedMovePosition siteW siteL objW objD rawXm rawYm).1 ≤ siteW - objW) ∧
        (0 ≤ (reportedMovePosition siteW siteL objW objD rawXm rawYm).2 ∧
          (reportedMovePosition siteW siteL objW objD rawXm rawYm).2 ≤ siteL - objD) ∧
        (isHalfStep (reportedMovePosition siteW siteL objW objD rawXm rawYm).1 ∨
          (reportedMovePosition siteW siteL objW objD rawXm rawYm).1 = siteW - objW) ∧
        (isHalfStep (reportedMovePosition siteW siteL objW objD rawXm rawYm).2 ∨
          (reportedMovePosition siteW siteL objW objD rawXm rawYm).2 = siteL - objD)) ∧
    reportedMovePosition 10 10 2 2 (-5) 0 = (0, 0) ∧
    reportedMovePosition 10 10 2 2 9 0 = (8, 0) := by
  refine ⟨?_, by norm_num [reportedMovePosition, snapHalf, round_eq],
    by norm_num [reportedMovePosition, snapHalf, round_eq]⟩
  intro siteW siteL objW objD rawXm rawYm hW hD
  have hbW : (0 : ℚ) ≤ siteW - objW := by linarith
  have hbD : (0 : ℚ) ≤ siteL - objD := by linarith
  simp only [reportedMovePosition]
  refine ⟨clamp_mem _ _ hbW, clamp_mem _ _ hbD, ?_, ?_⟩
  · rcases clamp_cases (snapHalf rawXm) (siteW - objW) hbW with h | h | h
    · exact Or.inl (by rw [h]; exact snapHalf_isHalfStep rawXm)
    · exact Or.inl (by rw [h]; exact ⟨0, by norm_num⟩)
    · exact Or.inr h
  · rcases clamp_cases (snapHalf rawYm) (siteL - objD) hbD with h | h | h
    · exact Or.inl (by rw [h]; exact snapHalf_isHalfStep rawYm)
    · exact Or.inl (by rw [h]; exact ⟨0, by norm_num⟩)
    · exact Or.inr h

/-- Witness for C4: the amended drag postcondition applied to an object of
width 2 and depth 2 on a 10x10 site dragged to raw (9, -5). -/
theorem drag_move_clamped_snapped_witness :
    (0 ≤ (reportedMovePosition 10 10 2 2 9 (-5)).1 ∧
      (reportedMovePosition 10 10 2 2 9 (-5)).1 ≤ 10 - 2) ∧
    (0 ≤ (reportedMovePosition 10 10 2 2 9 (-5)).2 ∧
      (reportedMovePosition 10 10 2 2 9 (-5)).2 ≤ 10 - 2) ∧
    (isHalfStep (reportedMovePosition 10 10 2 2 9 (-5)).1 ∨
      (reportedMovePosition 10 10 2 2 9 (-5)).1 = 10 - 2) ∧
    (isHalfStep (reportedMovePosition 10 10 2 2 9 (-5)).2 ∨
      (reportedMovePosition 10 10 2 2 9 (-5)).2 = 10 - 2) :=
  drag_move_clamped_snapped.1 10 10 2 2 9 (-5) (by norm_num) (by norm_num)

/-- C5: neighbor-gap symmetry.  For every pair of placed objects whose
Y-ranges overlap under the epsilon tolerance and where B lies strictly to
the right of A's right edge, the overlap test is symmetric and the
right-gap computed when dragging A (B as right neighbor) equals the
left-gap computed when dragging B (A as left neighbor); for the concrete
A (0,0,2,2) and B (5,0,2,2) both gaps equal 3. -/
theorem neighbor_gap_symmetry :
    (∀ a b : RackBlock,
        0 < vertOverlap a b →
        a.x + a.width ≤ b.x →
        vertOverlap b a = vertOverlap a b ∧ rightGap a b = leftGap b a) ∧
    rightGap rackA rackB = 3 ∧ leftGap rackB rackA = 3 ∧
    0 < vertOverlap rackA rackB := by
  refine ⟨?_, by norm_num [rightGap, rackA, rackB],
    by norm_num [leftGap, rackA, rackB],
    by norm_num [vertOverlap, rackA, rackB, EPSILON]⟩
  intro a b hov hx
  constructor
  · unfold vertOverlap
    rw [min_comm (b.y + b.depth), max_comm b.y]
  · unfold rightGap leftGap
    ring

/-- Witness for C5: the gap-symmetry theorem applied to the concrete pair
A (0,0,2,2), B (5,0,2,2). -/
theorem neighbor_gap_symmetry_witness :
    vertOverlap rackB rackA = vertOverlap rackA rackB ∧
    rightGap rackA rackB = leftGap rackB rackA :=
  neighbor_gap_symmetry.1 rackA rackB
    (by norm_num [vertOverlap, rackA, rackB, EPSILON])
    (by norm_num [rackA, rackB])

/-- C8: degenerate-site error handling.  For every project with a
non-positive site width or length, the 2D render trace consists of exactly
the background fill followed by the placeholder message: no floor, grid,
wall, dimension, lighting, or object command is emitted.  The renderer is a
total function, so no exception can be raised. -/
theorem degenerate_site_render :
    ∀ data : ProjectData,
      data.width ≤ 0 ∨ data.length ≤ 0 →
      drawScene2DOps data = [DrawOp.background, DrawOp.placeholder] := by
  intro data h
  simp only [drawScene2DOps, if_pos h]

/-- Witness for C8: the degenerate-render theorem applied to the concrete
project with zero width (which carries active lighting and two objects,
none of which are drawn). -/
theorem degenerate_site_render_witness :
    drawScene2DOps dataZeroWidth = [DrawOp.background, DrawOp.placeholder] :=
  degenerate_site_render dataZeroWidth
    (Or.inl (by norm_num [dataZeroWidth]))

/-- C9: positive-footprint invariant of the object collection.  The add
operation rejects a non-positive effective width or depth leaving the state
unchanged; an accepted add appends an object with positive footprint; and
the move, relabel, and delete operations preserve the invariant because
they never change a width or depth. -/
theorem rack_collection_invariant :
    (∀ (data : ProjectData) (inputMode : ObjectType)
        (rackW rackD rackH mezzW mezzD mezzEl : ℚ) (newId : String),
        ((if inputMode = ObjectType.MEZZANINE then mezzW else rackW) ≤ 0 ∨
          (if inputMode = ObjectType.MEZZANINE then mezzD else rackD) ≤ 0) →
        handleAddObject data inputMode rackW rackD rackH mezzW mezzD mezzEl newId
          = data) ∧
    (∀ (data : ProjectData) (inputMode : ObjectType)
        (rackW rackD rackH mezzW mezzD mezzEl : ℚ) (newId : String),
        racksInvariant data.storage.racks →
        racksInvariant
          (handleAddObject data inputMode rackW rackD rackH mezzW mezzD mezzEl
            newId).storage.racks) ∧
    (∀ (data : ProjectData) (id : String) (x y : ℚ),
        racksInvariant data.storage.racks →
        racksInvariant (handleRackMove data id x y).storage.racks) ∧
    (∀ (data : ProjectData) (id newLabel : String),
        racksInvariant data.storage.racks →
        racksInvariant (updateRackLabel data id newLabel).storage.racks) ∧
    (∀ (data : ProjectData) (id : String),
        racksInvariant data.storage.racks →
        racksInvariant (removeRack data id).storage.racks) := by
  refine ⟨?_, ?_, ?_, ?_, ?_⟩
  · intro data inputMode rackW rackD rackH mezzW mezzD mezzEl newId h
    simp only [handleAddObject, if_pos h]
  · intro data inputMode rackW rackD rackH mezzW mezzD mezzEl newId hinv
    by_cases h : (if inputMode = ObjectType.MEZZANINE then mezzW else rackW) ≤ 0 ∨
        (if inputMode = ObjectType.MEZZANINE then mezzD else rackD) ≤ 0
    · simp only [handleAddObject, if_pos h]
      exact hinv
    · have hguard := h
      push_neg at h
      simp only [handleAddObject, if_neg hguard]
      intro r hr
      rcases List.mem_append.mp hr with hr | hr
      · exact hinv r hr
      · rcases List.mem_singleton.mp hr with rfl
        exact ⟨h.1, h.2⟩
  · intro data id x y hinv
    intro r hr
    simp only [handleRackMove] at hr
    rcases List.mem_map.mp hr with ⟨r0, hr0, rfl⟩
    unfold moveUpdate
    by_cases hid : r0.id = id
    · rw [if_pos hid]
      exact hinv r0 hr0
    · rw [if_neg hid]
      exact hinv r0 hr0
  · intro data id newLabel hinv
    intro r hr
    simp only [updateRackLabel] at hr
    rcases List.mem_map.mp hr with ⟨r0, hr0, rfl⟩
    by_cases hid : r0.id = id
    · rw [if_pos hid]
      exact hinv r0 hr0
    · rw [if_neg hid]
      exact hinv r0 hr0
  · intro data id hinv
    intro r hr
    simp only [removeRack] at hr
    exact hinv r (List.mem_of_mem_filter hr)

/-- Witness for C9: a rejected add (`rackW = 0`) leaves `dataTwoRacks`
unchanged, and the invariant is preserved by an accepted add, a move, a
relabel, and a delete on `dataTwoRacks` (whose two racks have positive
footprints). -/
theorem rack_collection_invariant_witness :
    handleAddObject dataTwoRacks ObjectType.RACK 0 1 2 5 5 3 "r9" = dataTwoRacks ∧
    racksInvariant
      (handleAddObject dataTwoRacks ObjectType.RACK (6/5) 1 2 5 5 3 "r9").storage.racks ∧
    racksInvariant (handleRackMove dataTwoRacks "A" 3 4).storage.racks ∧
    racksInvariant (updateRackLabel dataTwoRacks "A" "Z").storage.racks ∧
    racksInvariant (removeRack dataTwoRacks "A").storage.racks := by
  have hinv : racksInvariant dataTwoRacks.storage.racks := by
    intro r hr
    simp only [dataTwoRacks, data20dist5, List.mem_cons, List.mem_singleton,
      List.not_mem_nil, or_false] at hr
    rcases hr with rfl | rfl
    · norm_num [rackA]
    · norm_num [rackB]
  exact ⟨rack_collection_invariant.1 dataTwoRacks ObjectType.RACK 0 1 2 5 5 3 "r9"
      (Or.inl (by rw [if_neg (fun h => ObjectType.noConfusion h)])),
    rack_collection_invariant.2.1 dataTwoRacks ObjectType.RACK (6/5) 1 2 5 5 3 "r9" hinv,
    rack_collection_invariant.2.2.1 dataTwoRacks "A" 3 4 hinv,
    rack_collection_invariant.2.2.2.1 dataTwoRacks "A" "Z" hinv,
    rack_collection_invariant.2.2.2.2 dataTwoRacks "A" hinv⟩

/-- C10: frame condition of the move entry point.  `handleRackMove` leaves
the site dimensions, ceiling height, lighting configuration, remaining
project fields, and the `isActive` flag unchanged; it maps the object list
pointwise with `moveUpdate`, which leaves every object with a different
identifier untouched and changes only the `x` and `y` fields of objects
with the given identifier, preserving their id, type, width, depth, height,
elevation, and label. -/
theorem move_frame_condition :
    ∀ (prev : ProjectData) (id : String) (x y : ℚ),
      (handleRackMove prev id x y).projectName = prev.projectName ∧
      (handleRackMove prev id x y).width = prev.width ∧
      (handleRackMove prev id x y).length = prev.length ∧
      (handleRackMove prev id x y).ceilingHeight = prev.ceilingHeight ∧
      (handleRackMove prev id x y).lighting = prev.lighting ∧
      (handleRackMove prev id x y).luxRequired = prev.luxRequired ∧
      (handleRackMove prev id x y).observations = prev.observations ∧
      (handleRackMove prev id x y).storage.isActive = prev.storage.isActive ∧
      (handleRackMove prev id x y).storage.racks =
        prev.storage.racks.map (moveUpdate id x y) ∧
      (∀ r : RackBlock, r.id ≠ id → moveUpdate id x y r = r) ∧
      (∀ r : RackBlock,
        (moveUpdate id x y r).id = r.id ∧
        (moveUpdate id x y r).type = r.type ∧
        (moveUpdate id x y r).width = r.width ∧
        (moveUpdate id x y r).depth = r.depth ∧
        (moveUpdate id x y r).height = r.height ∧
        (moveUpdate id x y r).elevation = r.elevation ∧
        (moveUpdate id x y r).label = r.label) ∧
      (∀ r : RackBlock, r.id = id →
        (moveUpdate id x y r).x = x ∧ (moveUpdate id x y r).y = y) := by
  intro prev id x y
  refine ⟨rfl, rfl, rfl, rfl, rfl, rfl, rfl, rfl, rfl, ?_, ?_, ?_⟩
  · intro r hne
    simp only [moveUpdate, if_neg hne]
  · intro r
    by_cases hid : r.id = id <;> simp [moveUpdate, hid]
  · intro r hid
    simp [moveUpdate, hid]

/-- Witness for C10: the frame condition applied to `dataTwoRacks`, moving
"A" to (3, 4); the object "B" is untouched and "A" keeps every field but
its position. -/
theorem move_frame_condition_witness :
    (handleRackMove dataTwoRacks "A" 3 4).lighting = dataTwoRacks.lighting ∧
    moveUpdate "A" 3 4 rackB = rackB ∧
    (moveUpdate "A" 3 4 rackA).width = rackA.width ∧
    (moveUpdate "A" 3 4 rackA).x = 3 := by
  have h := move_frame_condition dataTwoRacks "A" 3 4
  exact ⟨h.2.2.2.2.1,
    h.2.2.2.2.2.2.2.2.2.1 rackB (by decide),
    (h.2.2.2.2.2.2.2.2.2.2.1 rackA).2.2.1,
    (h.2.2.2.2.2.2.2.2.2.2.2 rackA (by decide)).1⟩
